import Mathlib

/-!
Shallow embedding of the `MultiModalApp` component
(`src/frontend_service/src/App.tsx`): microphone permission handling,
the recording state machine, and the four-stage remote processing
pipeline (`handleProcessFlow`).

The React `useState` fields become one record `AppState`; the remote
endpoints become a response oracle `Remote`; each handler becomes a pure
function from the oracle and the current state to the next state, a trace
of observable events (progress updates and remote calls issued) and an
outcome.
-/

namespace MMApp

/-- The four pipeline steps, in the source's `currentStep` labels:
"transcribing", "generating", "analyzing", "speaking". -/
inductive Stage where
  | transcribing
  | generating
  | analyzing
  | speaking
  deriving DecidableEq, Repr

/-- A remote endpoint's response: HTTP-ok with a parsed body, or a
non-ok status whose JSON body may carry a `detail` field. -/
inductive Resp (α : Type) where
  | ok (data : α)
  | err (detail : Option String)
  deriving DecidableEq, Repr

/-- Body of a successful `analyze_image_similarity` response.
The similarity score (a JS number, 0–100) is modelled as an integer;
no claim depends on its arithmetic. -/
structure AnalysisData where
  similarity_score : Int
  image_description : String
  deriving DecidableEq, Repr

/-- The four remote services behind `modalUrl`, as response oracles:
each stage's response may depend on the request the code sends. -/
structure Remote where
  transcribe : Resp String
  generate_image : String → Resp String
  analyze_image_similarity : String → String → Resp AnalysisData
  text_to_speech : String → Resp String

/-- A `MediaDeviceInfo` entry as used by the source (id, label, kind). -/
structure MediaDeviceInfo where
  deviceId : String
  label : String
  kind : String
  deriving DecidableEq, Repr

/-- A binary blob: byte data plus a MIME type (`new Blob(chunks, {type})`). -/
structure Blob where
  data : List Nat
  type : String
  deriving DecidableEq, Repr

/-- `MediaRecorder.state` values the app can produce: the app never
pauses, so only "recording" and "inactive" are reachable. -/
inductive RecState where
  | recording
  | inactive
  deriving DecidableEq, Repr

/-- The live recorder together with its closure state: the accumulated
`chunks` array and whether the capture stream's tracks were stopped. -/
structure Recorder where
  state : RecState
  chunks : List Blob
  streamReleased : Bool
  deriving DecidableEq, Repr

/-- The component's `useState` fields. -/
structure AppState where
  audioDevices : List MediaDeviceInfo
  selectedDeviceId : Option String
  isRecording : Bool
  recorder : Option Recorder
  recordedBlob : Option Blob
  isProcessing : Bool
  currentStep : Option Stage
  progress : Nat
  transcript : String
  imageUrl : String
  similarityScore : Option Int
  imageDescription : String
  descriptionAudio : String
  deriving DecidableEq, Repr

/-- Observable events of a pipeline run: `setProgress` updates and
remote `fetch` calls issued, in program order. -/
inductive Event where
  | setProgress (p : Nat)
  | call (s : Stage)
  deriving DecidableEq, Repr

/-- How a `handleProcessFlow` invocation ends: the early "No Recording"
return, the success toast, or the catch block (failing step and the
thrown error's message). -/
inductive Outcome where
  | noRecording
  | completed
  | failed (stage : Stage) (message : String)
  deriving DecidableEq, Repr

/-- Result of one `handleProcessFlow` invocation. -/
structure RunResult where
  state : AppState
  events : List Event
  outcome : Outcome
  deriving DecidableEq, Repr

/-- JS `a || b` on the optional `detail` field of an error body:
`undefined` and the empty string are falsy. -/
def jsOrElse (detail : Option String) (fallback : String) : String :=
  match detail with
  | none => fallback
  | some m => if m = "" then fallback else m

/-- The generic message thrown when the error body has no detail. -/
def fallbackMsg : Stage → String
  | .transcribing => "Failed to transcribe audio"
  | .generating => "Failed to generate image"
  | .analyzing => "Failed to analyze image"
  | .speaking => "Failed to convert text to speech"

/-- The `finally` block after a thrown stage error:
`setIsProcessing(false); setCurrentStep(null)`, outcome from the catch. -/
def finishFailed (s : AppState) (evs : List Event) (st : Stage)
    (d : Option String) : RunResult :=
  ⟨{ s with isProcessing := false, currentStep := none }, evs,
    Outcome.failed st (jsOrElse d (fallbackMsg st))⟩

/-- The `finally` block after the success toast. -/
def finishOk (s : AppState) (evs : List Event) : RunResult :=
  ⟨{ s with isProcessing := false, currentStep := none }, evs,
    Outcome.completed⟩

/-- Step 4: `setCurrentStep("speaking")`, then the `text_to_speech` call
guarded by the truthiness of `image_description`, then `setProgress(100)`. -/
def runStep4 (remote : Remote) (desc : String) (s : AppState)
    (evs : List Event) : RunResult :=
  let s := { s with currentStep := some Stage.speaking }
  if desc = "" then
    finishOk { s with progress := 100 } (evs ++ [Event.setProgress 100])
  else
    match remote.text_to_speech desc with
    | .err d => finishFailed s (evs ++ [Event.call Stage.speaking]) Stage.speaking d
    | .ok audio =>
        finishOk { s with descriptionAudio := audio, progress := 100 }
          (evs ++ [Event.call Stage.speaking, Event.setProgress 100])

/-- Step 3: `setCurrentStep("analyzing")`, the `analyze_image_similarity`
call with `{prompt, image_url}`, then on success store
`{similarity_score, image_description}` and `setProgress(80)`. -/
def runStep3 (remote : Remote) (tr url : String) (s : AppState)
    (evs : List Event) : RunResult :=
  let s := { s with currentStep := some Stage.analyzing }
  let evs := evs ++ [Event.call Stage.analyzing]
  match remote.analyze_image_similarity tr url with
  | .err d => finishFailed s evs Stage.analyzing d
  | .ok ad =>
      runStep4 remote ad.image_description
        { s with similarityScore := some ad.similarity_score,
                 imageDescription := ad.image_description, progress := 80 }
        (evs ++ [Event.setProgress 80])

/-- Step 2: `setCurrentStep("generating")`, the `generate_image` call
with the transcript as prompt, then on success store the image url and
`setProgress(60)`. -/
def runStep2 (remote : Remote) (tr : String) (s : AppState)
    (evs : List Event) : RunResult :=
  let s := { s with currentStep := some Stage.generating }
  let evs := evs ++ [Event.call Stage.generating]
  match remote.generate_image tr with
  | .err d => finishFailed s evs Stage.generating d
  | .ok url =>
      runStep3 remote tr url
        { s with imageUrl := url, progress := 60 }
        (evs ++ [Event.setProgress 60])

/-- Step 1: `setCurrentStep("transcribing"); setProgress(20)`, the
`transcribe` call with the recorded blob, then on success store the
transcript and `setProgress(40)`. -/
def runStep1 (remote : Remote) (s : AppState) (evs : List Event) : RunResult :=
  let s := { s with currentStep := some Stage.transcribing, progress := 20 }
  let evs := evs ++ [Event.setProgress 20, Event.call Stage.transcribing]
  match remote.transcribe with
  | .err d => finishFailed s evs Stage.transcribing d
  | .ok tr =>
      runStep2 remote tr
        { s with transcript := tr, progress := 40 }
        (evs ++ [Event.setProgress 40])

/-- `handleProcessFlow`: the early `!recordedBlob` return leaves the
state untouched; otherwise `setIsProcessing(true); setProgress(0)` and
the four awaited steps in order. -/
def handleProcessFlow (remote : Remote) (s : AppState) : RunResult :=
  match s.recordedBlob with
  | none => ⟨s, [], Outcome.noRecording⟩
  | some _ =>
      runStep1 remote { s with isProcessing := true, progress := 0 }
        [Event.setProgress 0]

/-- The stages whose remote call was issued during a run, in order. -/
def calls (r : RunResult) : List Stage :=
  r.events.filterMap fun e =>
    match e with
    | .call st => some st
    | _ => none

/-- The successive values `setProgress` was given during a run. -/
def progressTrace (r : RunResult) : List Nat :=
  r.events.filterMap fun e =>
    match e with
    | .setProgress p => some p
    | _ => none

/-- The `Process Recording` button: rendered only when a recording
exists, `disabled={isRecording || isProcessing}`. -/
def processButtonEnabled (s : AppState) : Bool :=
  s.recordedBlob.isSome && !(s.isRecording || s.isProcessing)

/-- The fixed recording MIME type. -/
def mimeType : String := "audio/webm; codecs=opus"

/-- `new Blob(chunks, { type: mimeType })` in the `onstop` handler:
concatenates the accumulated chunks. -/
def finalizeBlob (chunks : List Blob) : Blob :=
  ⟨(chunks.map Blob.data).flatten, mimeType⟩

/-- The `ondataavailable` handler: pushes a chunk only when its size is
positive. -/
def ondataavailable (r : Recorder) (data : Blob) : Recorder :=
  if 0 < data.data.length then { r with chunks := r.chunks ++ [data] } else r

/-- `handleStopRecording`: guarded by `recorder && recorder.state !==
"inactive"`; `recorder.stop()` fires `onstop`, which finalizes the
chunks into one blob and stops every stream track, and the handler sets
`isRecording` to false. -/
def handleStopRecording (s : AppState) : AppState :=
  match s.recorder with
  | none => s
  | some r =>
      if r.state = RecState.inactive then s
      else
        { s with
            recorder := some { r with state := RecState.inactive,
                                      streamReleased := true },
            recordedBlob := some (finalizeBlob r.chunks),
            isRecording := false }

/-- What the platform did for `getUserMedia({audio:true})` followed by
`enumerateDevices()`: grant (with the device list), a `NotAllowedError`,
or another error. -/
inductive PermResult where
  | granted (devices : List MediaDeviceInfo)
  | notAllowed
  | otherError (msg : String)
  deriving DecidableEq, Repr

/-- The toast `handleRequestMicPermissions` ends with (or none). -/
inductive MicOutcome where
  | ok
  | noMicrophones
  | permissionError (description : String)
  deriving DecidableEq, Repr

/-- `handleRequestMicPermissions`: on grant, filter the enumerated
devices to `audioinput`, store them, and select the first if any;
on zero microphones toast "No Microphones"; on a thrown error toast
"Permission Error" with a message depending on `err.name`. -/
def handleRequestMicPermissions (p : PermResult) (s : AppState) :
    AppState × MicOutcome :=
  match p with
  | .granted devices =>
      let microphones := devices.filter fun d => d.kind = "audioinput"
      match microphones with
      | [] => ({ s with audioDevices := [] }, .noMicrophones)
      | d :: rest =>
          ({ s with audioDevices := d :: rest,
                    selectedDeviceId := some d.deviceId }, .ok)
  | .notAllowed => (s, .permissionError "Microphone permission was denied.")
  | .otherError m => (s, .permissionError ("Error: " ++ m))

/-- How `handleStartRecording` ends. -/
inductive StartOutcome where
  | noMicrophone
  | unsupportedFormat
  | recordingError (msg : String)
  | started
  deriving DecidableEq, Repr

/-- `handleStartRecording`: requires a selected device, then the
`isTypeSupported` check, then `getUserMedia` (which may throw); on
success clears the previous blob and starts a fresh recorder. -/
def handleStartRecording (typeSupported : Bool)
    (getUserMediaResult : Except String Unit) (s : AppState) :
    AppState × StartOutcome :=
  match s.selectedDeviceId with
  | none => (s, .noMicrophone)
  | some _ =>
      if typeSupported = false then (s, .unsupportedFormat)
      else
        match getUserMediaResult with
        | .error m => (s, .recordingError m)
        | .ok _ =>
            ({ s with recordedBlob := none,
                      recorder := some ⟨RecState.recording, [], false⟩,
                      isRecording := true }, .started)

/-- A concrete recorded blob, for concrete evaluations. -/
def demoBlob : Blob :=
  ⟨[1, 2, 3], mimeType⟩

/-- A concrete analysis body (the spec's walk-through scenario). -/
def demoAnalysis : AnalysisData :=
  ⟨82, "a red fox standing among trees"⟩

/-- A remote oracle on which all four stages succeed. -/
def demoRemote : Remote where
  transcribe := .ok "a red fox in a forest"
  generate_image := fun _ => .ok "https://img.example/fox.png"
  analyze_image_similarity := fun _ _ => .ok demoAnalysis
  text_to_speech := fun _ => .ok "QUJD"

/-- A remote oracle whose analysis succeeds with an empty description. -/
def emptyDescRemote : Remote where
  transcribe := .ok "a red fox in a forest"
  generate_image := fun _ => .ok "https://img.example/fox.png"
  analyze_image_similarity := fun _ _ => .ok ⟨82, ""⟩
  text_to_speech := fun _ => .ok "QUJD"

/-- A remote oracle whose image generation fails with detail "quota exceeded". -/
def quotaRemote : Remote where
  transcribe := .ok "a red fox in a forest"
  generate_image := fun _ => .err (some "quota exceeded")
  analyze_image_similarity := fun _ _ => .ok demoAnalysis
  text_to_speech := fun _ => .ok "QUJD"

/-- A base state holding a recording, with all result fields empty. -/
def demoState : AppState :=
  ⟨[], none, false, none, some demoBlob, false, none, 0, "", "", none, "", ""⟩

/-- A concrete audio input device. -/
def micDevice : MediaDeviceInfo :=
  ⟨"mic-1", "Built-in Microphone", "audioinput"⟩

/-- A concrete non-audio device, to exercise the kind filter. -/
def camDevice : MediaDeviceInfo :=
  ⟨"cam-1", "Built-in Camera", "videoinput"⟩

/-- A state in the middle of a capture with zero accumulated chunks. -/
def recordingDemo : AppState :=
  { demoState with recorder := some ⟨RecState.recording, [], false⟩,
                   isRecording := true, recordedBlob := none }

/-- `run` equation: with no recording, `handleProcessFlow` returns at
once, leaving the state untouched, issuing no call and no progress update. -/
theorem run_noBlob (remote : Remote) (s : AppState) (hb : s.recordedBlob = none) :
    handleProcessFlow remote s = ⟨s, [], Outcome.noRecording⟩ := by
  simp [handleProcessFlow, hb]

/-- `run` equation: transcription fails. -/
theorem run_ferr1 (remote : Remote) (s : AppState) (b : Blob) (d : Option String)
    (hb : s.recordedBlob = some b) (h1 : remote.transcribe = Resp.err d) :
    handleProcessFlow remote s =
      ⟨{ s with isProcessing := false, currentStep := none, progress := 20 },
       [Event.setProgress 0, Event.setProgress 20, Event.call Stage.transcribing],
       Outcome.failed Stage.transcribing (jsOrElse d (fallbackMsg Stage.transcribing))⟩ := by
  simp [handleProcessFlow, runStep1, finishFailed, hb, h1]

/-- `run` equation: transcription succeeds, image generation fails. -/
theorem run_ferr2 (remote : Remote) (s : AppState) (b : Blob) (tr : String)
    (d : Option String) (hb : s.recordedBlob = some b)
    (h1 : remote.transcribe = Resp.ok tr)
    (h2 : remote.generate_image tr = Resp.err d) :
    handleProcessFlow remote s =
      ⟨{ s with isProcessing := false, currentStep := none, progress := 40,
                transcript := tr },
       [Event.setProgress 0, Event.setProgress 20, Event.call Stage.transcribing,
        Event.setProgress 40, Event.call Stage.generating],
       Outcome.failed Stage.generating (jsOrElse d (fallbackMsg Stage.generating))⟩ := by
  simp [handleProcessFlow, runStep1, runStep2, finishFailed, hb, h1, h2]

/-- `run` equation: stages 1–2 succeed, similarity analysis fails. -/
theorem run_ferr3 (remote : Remote) (s : AppState) (b : Blob) (tr url : String)
    (d : Option String) (hb : s.recordedBlob = some b)
    (h1 : remote.transcribe = Resp.ok tr)
    (h2 : remote.generate_image tr = Resp.ok url)
    (h3 : remote.analyze_image_similarity tr url = Resp.err d) :
    handleProcessFlow remote s =
      ⟨{ s with isProcessing := false, currentStep := none, progress := 60,
                transcript := tr, imageUrl := url },
       [Event.setProgress 0, Event.setProgress 20, Event.call Stage.transcribing,
        Event.setProgress 40, Event.call Stage.generating,
        Event.setProgress 60, Event.call Stage.analyzing],
       Outcome.failed Stage.analyzing (jsOrElse d (fallbackMsg Stage.analyzing))⟩ := by
  simp [handleProcessFlow, runStep1, runStep2, runStep3, finishFailed, hb, h1, h2, h3]

/-- `run` equation: stages 1–3 succeed with an empty description, so the
speech stage is skipped and the run completes. -/
theorem run_okEmpty (remote : Remote) (s : AppState) (b : Blob) (tr url : String)
    (ad : AnalysisData) (hb : s.recordedBlob = some b)
    (h1 : remote.transcribe = Resp.ok tr)
    (h2 : remote.generate_image tr = Resp.ok url)
    (h3 : remote.analyze_image_similarity tr url = Resp.ok ad)
    (hd : ad.image_description = "") :
    handleProcessFlow remote s =
      ⟨{ s with isProcessing := false, currentStep := none, progress := 100,
                transcript := tr, imageUrl := url,
                similarityScore := some ad.similarity_score,
                imageDescription := ad.image_description },
       [Event.setProgress 0, Event.setProgress 20, Event.call Stage.transcribing,
        Event.setProgress 40, Event.call Stage.generating,
        Event.setProgress 60, Event.call Stage.analyzing,
        Event.setProgress 80, Event.setProgress 100],
       Outcome.completed⟩ := by
  simp [handleProcessFlow, runStep1, runStep2, runStep3, runStep4, finishOk,
    hb, h1, h2, h3, hd]

/-- `run` equation: stages 1–3 succeed with a non-empty description,
speech synthesis fails. -/
theorem run_ferr4 (remote : Remote) (s : AppState) (b : Blob) (tr url : String)
    (ad : AnalysisData) (d : Option String) (hb : s.recordedBlob = some b)
    (h1 : remote.transcribe = Resp.ok tr)
    (h2 : remote.generate_image tr = Resp.ok url)
    (h3 : remote.analyze_image_similarity tr url = Resp.ok ad)
    (hd : ¬ ad.image_description = "")
    (h4 : remote.text_to_speech ad.image_description = Resp.err d) :
    handleProcessFlow remote s =
      ⟨{ s with isProcessing := false, currentStep := none, progress := 80,
                transcript := tr, imageUrl := url,
                similarityScore := some ad.similarity_score,
                imageDescription := ad.image_description },
       [Event.setProgress 0, Event.setProgress 20, Event.call Stage.transcribing,
        Event.setProgress 40, Event.call Stage.generating,
        Event.setProgress 60, Event.call Stage.analyzing,
        Event.setProgress 80, Event.call Stage.speaking],
       Outcome.failed Stage.speaking (jsOrElse d (fallbackMsg Stage.speaking))⟩ := by
  simp [handleProcessFlow, runStep1, runStep2, runStep3, runStep4, finishFailed,
    hb, h1, h2, h3, hd, h4]

/-- `run` equation: all four stages succeed. -/
theorem run_okFull (remote : Remote) (s : AppState) (b : Blob) (tr url : String)
    (ad : AnalysisData) (audio : String) (hb : s.recordedBlob = some b)
    (h1 : remote.transcribe = Resp.ok tr)
    (h2 : remote.generate_image tr = Resp.ok url)
    (h3 : remote.analyze_image_similarity tr url = Resp.ok ad)
    (hd : ¬ ad.image_description = "")
    (h4 : remote.text_to_speech ad.image_description = Resp.ok audio) :
    handleProcessFlow remote s =
      ⟨{ s with isProcessing := false, currentStep := none, progress := 100,
                transcript := tr, imageUrl := url,
                similarityScore := some ad.similarity_score,
                imageDescription := ad.image_description,
                descriptionAudio := audio },
       [Event.setProgress 0, Event.setProgress 20, Event.call Stage.transcribing,
        Event.setProgress 40, Event.call Stage.generating,
        Event.setProgress 60, Event.call Stage.analyzing,
        Event.setProgress 80, Event.call Stage.speaking, Event.setProgress 100],
       Outcome.completed⟩ := by
  simp [handleProcessFlow, runStep1, runStep2, runStep3, runStep4, finishOk,
    hb, h1, h2, h3, hd, h4]

/-- Master case analysis: a run on a present recording ends in exactly
one of six shapes, determined by the remote responses. -/
theorem run_shape (remote : Remote) :
    (∃ d, remote.transcribe = Resp.err d) ∨
    (∃ tr d, remote.transcribe = Resp.ok tr ∧
       remote.generate_image tr = Resp.err d) ∨
    (∃ tr url d, remote.transcribe = Resp.ok tr ∧
       remote.generate_image tr = Resp.ok url ∧
       remote.analyze_image_similarity tr url = Resp.err d) ∨
    (∃ tr url ad, remote.transcribe = Resp.ok tr ∧
       remote.generate_image tr = Resp.ok url ∧
       remote.analyze_image_similarity tr url = Resp.ok ad ∧
       ad.image_description = "") ∨
    (∃ tr url ad d, remote.transcribe = Resp.ok tr ∧
       remote.generate_image tr = Resp.ok url ∧
       remote.analyze_image_similarity tr url = Resp.ok ad ∧
       ¬ ad.image_description = "" ∧
       remote.text_to_speech ad.image_description = Resp.err d) ∨
    (∃ tr url ad audio, remote.transcribe = Resp.ok tr ∧
       remote.generate_image tr = Resp.ok url ∧
       remote.analyze_image_similarity tr url = Resp.ok ad ∧
       ¬ ad.image_description = "" ∧
       remote.text_to_speech ad.image_description = Resp.ok audio) := by
  cases h1 : remote.transcribe with
  | err d => exact Or.inl ⟨d, rfl⟩
  | ok tr =>
    cases h2 : remote.generate_image tr with
    | err d => exact Or.inr (Or.inl ⟨tr, d, rfl, h2⟩)
    | ok url =>
      cases h3 : remote.analyze_image_similarity tr url with
      | err d => exact Or.inr (Or.inr (Or.inl ⟨tr, url, d, rfl, h2, h3⟩))
      | ok ad =>
        by_cases hd : ad.image_description = ""
        · exact Or.inr (Or.inr (Or.inr (Or.inl ⟨tr, url, ad, rfl, h2, h3, hd⟩)))
        · cases h4 : remote.text_to_speech ad.image_description with
          | err d =>
            exact Or.inr (Or.inr (Or.inr (Or.inr (Or.inl
              ⟨tr, url, ad, d, rfl, h2, h3, hd, h4⟩))))
          | ok audio =>
            exact Or.inr (Or.inr (Or.inr (Or.inr (Or.inr
              ⟨tr, url, ad, audio, rfl, h2, h3, hd, h4⟩))))

/-- Helper: the stage calls a run issues always form one of the four
order prefixes of Transcribe, GenerateImage, AnalyzeSimilarity, Synthesize. -/
theorem calls_cases (remote : Remote) (s : AppState) (b : Blob)
    (hb : s.recordedBlob = some b) :
    calls (handleProcessFlow remote s) = [Stage.transcribing] ∨
    calls (handleProcessFlow remote s) = [Stage.transcribing, Stage.generating] ∨
    calls (handleProcessFlow remote s) =
      [Stage.transcribing, Stage.generating, Stage.analyzing] ∨
    calls (handleProcessFlow remote s) =
      [Stage.transcribing, Stage.generating, Stage.analyzing, Stage.speaking] := by
  rcases run_shape remote with ⟨d, h1⟩ | ⟨tr, d, h1, h2⟩ |
    ⟨tr, url, d, h1, h2, h3⟩ | ⟨tr, url, ad, h1, h2, h3, hd⟩ |
    ⟨tr, url, ad, d, h1, h2, h3, hd, h4⟩ | ⟨tr, url, ad, audio, h1, h2, h3, hd, h4⟩
  · rw [run_ferr1 remote s b d hb h1]; left; rfl
  · rw [run_ferr2 remote s b tr d hb h1 h2]; right; left; rfl
  · rw [run_ferr3 remote s b tr url d hb h1 h2 h3]; right; right; left; rfl
  · rw [run_okEmpty remote s b tr url ad hb h1 h2 h3 hd]; right; right; left; rfl
  · rw [run_ferr4 remote s b tr url ad d hb h1 h2 h3 hd h4]; right; right; right; rfl
  · rw [run_okFull remote s b tr url ad audio hb h1 h2 h3 hd h4]; right; right; right; rfl

/-- Helper: in every run the progress updates never decrease, and every
update after the first (the reset to 0 at run start) is positive. -/
theorem progressTrace_monotone (remote : Remote) (s : AppState) :
    List.Chain' (· ≤ ·) (progressTrace (handleProcessFlow remote s)) ∧
    ∀ p ∈ (progressTrace (handleProcessFlow remote s)).tail, 0 < p := by
  cases hb : s.recordedBlob with
  | none =>
    rw [run_noBlob remote s hb]
    constructor <;> simp [progressTrace]
  | some b =>
    rcases run_shape remote with ⟨d, h1⟩ | ⟨tr, d, h1, h2⟩ |
      ⟨tr, url, d, h1, h2, h3⟩ | ⟨tr, url, ad, h1, h2, h3, hd⟩ |
      ⟨tr, url, ad, d, h1, h2, h3, hd, h4⟩ | ⟨tr, url, ad, audio, h1, h2, h3, hd, h4⟩
    · rw [run_ferr1 remote s b d hb h1]
      exact ⟨show List.Chain' (· ≤ ·) [0, 20] by norm_num [List.chain'_cons],
        show ∀ p ∈ ([0, 20] : List Nat).tail, 0 < p by decide⟩
    · rw [run_ferr2 remote s b tr d hb h1 h2]
      exact ⟨show List.Chain' (· ≤ ·) [0, 20, 40] by norm_num [List.chain'_cons],
        show ∀ p ∈ ([0, 20, 40] : List Nat).tail, 0 < p by decide⟩
    · rw [run_ferr3 remote s b tr url d hb h1 h2 h3]
      exact ⟨show List.Chain' (· ≤ ·) [0, 20, 40, 60] by norm_num [List.chain'_cons],
        show ∀ p ∈ ([0, 20, 40, 60] : List Nat).tail, 0 < p by decide⟩
    · rw [run_okEmpty remote s b tr url ad hb h1 h2 h3 hd]
      exact ⟨show List.Chain' (· ≤ ·) [0, 20, 40, 60, 80, 100] by norm_num [List.chain'_cons],
        show ∀ p ∈ ([0, 20, 40, 60, 80, 100] : List Nat).tail, 0 < p by decide⟩
    · rw [run_ferr4 remote s b tr url ad d hb h1 h2 h3 hd h4]
      exact ⟨show List.Chain' (· ≤ ·) [0, 20, 40, 60, 80] by norm_num [List.chain'_cons],
        show ∀ p ∈ ([0, 20, 40, 60, 80] : List Nat).tail, 0 < p by decide⟩
    · rw [run_okFull remote s b tr url ad audio hb h1 h2 h3 hd h4]
      exact ⟨show List.Chain' (· ≤ ·) [0, 20, 40, 60, 80, 100] by norm_num [List.chain'_cons],
        show ∀ p ∈ ([0, 20, 40, 60, 80, 100] : List Nat).tail, 0 < p by decide⟩

/-- C6: invoking `run` with no recording supplied fails immediately with
the no-recording outcome, before any stage is started, leaving every
state field unchanged and issuing no remote call and no progress update. -/
theorem noRecording_rejects_immediately (remote : Remote) (s : AppState)
    (hb : s.recordedBlob = none) :
    (handleProcessFlow remote s).outcome = Outcome.noRecording ∧
    (handleProcessFlow remote s).state = s ∧
    calls (handleProcessFlow remote s) = [] ∧
    progressTrace (handleProcessFlow remote s) = [] := by
  rw [run_noBlob remote s hb]
  exact ⟨rfl, rfl, rfl, rfl⟩

/-- Witness for the C6 theorem at a concrete blob-less state. -/
theorem noRecording_rejects_immediately_witness :
    ({ demoState with recordedBlob := none } : AppState).recordedBlob = none ∧
    (handleProcessFlow demoRemote { demoState with recordedBlob := none }).outcome
        = Outcome.noRecording ∧
    (handleProcessFlow demoRemote { demoState with recordedBlob := none }).state
        = { demoState with recordedBlob := none } :=
  ⟨rfl,
    (noRecording_rejects_immediately demoRemote
      { demoState with recordedBlob := none } rfl).1,
    (noRecording_rejects_immediately demoRemote
      { demoState with recordedBlob := none } rfl).2.1⟩

/-- C7: `stop` during a capture finalizes the accumulated chunks into
one blob and releases the capture stream unconditionally (zero chunks
included — the quantifier covers `chunks = []`); `stop` with no recorder
or an inactive recorder is a no-op. -/
theorem stop_finalizes_and_releases (s : AppState) :
    (∀ r, s.recorder = some r → r.state = RecState.recording →
       handleStopRecording s =
         { s with recorder := some { r with state := RecState.inactive,
                                            streamReleased := true },
                  recordedBlob := some (finalizeBlob r.chunks),
                  isRecording := false }) ∧
    (s.recorder = none → handleStopRecording s = s) ∧
    (∀ r, s.recorder = some r → r.state = RecState.inactive →
       handleStopRecording s = s) := by
  refine ⟨?_, ?_, ?_⟩
  · intro r hr hrec
    simp [handleStopRecording, hr, hrec]
  · intro hr
    simp [handleStopRecording, hr]
  · intro r hr hin
    simp [handleStopRecording, hr, hin]

/-- Witness for the C7 theorem: stopping with zero accumulated chunks
still releases the stream and yields an (empty) recording. -/
theorem stop_finalizes_and_releases_witness :
    recordingDemo.recorder = some ⟨RecState.recording, [], false⟩ ∧
    handleStopRecording recordingDemo =
      { recordingDemo with
          recorder := some ⟨RecState.inactive, [], true⟩,
          recordedBlob := some (finalizeBlob []),
          isRecording := false } :=
  ⟨rfl, (stop_finalizes_and_releases recordingDemo).1
      ⟨RecState.recording, [], false⟩ rfl rfl⟩

/-- C9: permission denial gives the permission-error outcome; a grant
with zero input devices gives the distinct no-microphones outcome; a
grant with at least one input device stores the enumerated microphones
and selects the first. -/
theorem requestPermission_outcomes (p : PermResult) (s : AppState) :
    (p = PermResult.notAllowed →
       handleRequestMicPermissions p s =
         (s, MicOutcome.permissionError "Microphone permission was denied.")) ∧
    (∀ devices, p = PermResult.granted devices →
       devices.filter (fun d => d.kind = "audioinput") = [] →
       handleRequestMicPermissions p s =
         ({ s with audioDevices := [] }, MicOutcome.noMicrophones)) ∧
    (∀ devices d rest, p = PermResult.granted devices →
       devices.filter (fun d => d.kind = "audioinput") = d :: rest →
       handleRequestMicPermissions p s =
         ({ s with audioDevices := d :: rest,
                   selectedDeviceId := some d.deviceId }, MicOutcome.ok)) ∧
    (∀ m, MicOutcome.noMicrophones ≠ MicOutcome.permissionError m) := by
  refine ⟨?_, ?_, ?_, ?_⟩
  · intro hp; subst hp; rfl
  · intro devices hp hf; subst hp
    simp [handleRequestMicPermissions, hf]
  · intro devices d rest hp hf; subst hp
    simp [handleRequestMicPermissions, hf]
  · intro m h; cases h

/-- Witness for the C9 theorem: a grant enumerating a camera and a
microphone stores exactly the microphone and selects it. -/
theorem requestPermission_outcomes_witness :
    ([camDevice, micDevice].filter (fun d => d.kind = "audioinput")
        = [micDevice]) ∧
    handleRequestMicPermissions (PermResult.granted [camDevice, micDevice])
        demoState =
      ({ demoState with audioDevices := [micDevice],
                        selectedDeviceId := some micDevice.deviceId },
       MicOutcome.ok) :=
  ⟨by decide,
    (requestPermission_outcomes (PermResult.granted [camDevice, micDevice])
        demoState).2.2.1 [camDevice, micDevice] micDevice [] rfl (by decide)⟩

/-- C1: the stage calls a run issues always form an order prefix of
Transcribe, GenerateImage, AnalyzeSimilarity, Synthesize; no stage is
called twice; and at the first stage failure the run ends failed at
that stage carrying the response's detail message (or the generic
fallback when none is present), with no later stage ever called. -/
theorem stage_order_failfast (remote : Remote) (s : AppState) (b : Blob)
    (hb : s.recordedBlob = some b) :
    (calls (handleProcessFlow remote s) = [Stage.transcribing] ∨
     calls (handleProcessFlow remote s) = [Stage.transcribing, Stage.generating] ∨
     calls (handleProcessFlow remote s) =
       [Stage.transcribing, Stage.generating, Stage.analyzing] ∨
     calls (handleProcessFlow remote s) =
       [Stage.transcribing, Stage.generating, Stage.analyzing, Stage.speaking]) ∧
    (calls (handleProcessFlow remote s)).Nodup ∧
    (∀ d, remote.transcribe = Resp.err d →
       (handleProcessFlow remote s).outcome =
         Outcome.failed Stage.transcribing
           (jsOrElse d (fallbackMsg Stage.transcribing)) ∧
       calls (handleProcessFlow remote s) = [Stage.transcribing]) ∧
    (∀ tr d, remote.transcribe = Resp.ok tr →
       remote.generate_image tr = Resp.err d →
       (handleProcessFlow remote s).outcome =
         Outcome.failed Stage.generating
           (jsOrElse d (fallbackMsg Stage.generating)) ∧
       calls (handleProcessFlow remote s) =
         [Stage.transcribing, Stage.generating]) ∧
    (∀ tr url d, remote.transcribe = Resp.ok tr →
       remote.generate_image tr = Resp.ok url →
       remote.analyze_image_similarity tr url = Resp.err d →
       (handleProcessFlow remote s).outcome =
         Outcome.failed Stage.analyzing
           (jsOrElse d (fallbackMsg Stage.analyzing)) ∧
       calls (handleProcessFlow remote s) =
         [Stage.transcribing, Stage.generating, Stage.analyzing]) ∧
    (∀ tr url ad d, remote.transcribe = Resp.ok tr →
       remote.generate_image tr = Resp.ok url →
       remote.analyze_image_similarity tr url = Resp.ok ad →
       ¬ ad.image_description = "" →
       remote.text_to_speech ad.image_description = Resp.err d →
       (handleProcessFlow remote s).outcome =
         Outcome.failed Stage.speaking
           (jsOrElse d (fallbackMsg Stage.speaking)) ∧
       calls (handleProcessFlow remote s) =
         [Stage.transcribing, Stage.generating, Stage.analyzing, Stage.speaking]) := by
  refine ⟨calls_cases remote s b hb, ?_, ?_, ?_, ?_, ?_⟩
  · rcases calls_cases remote s b hb with hc | hc | hc | hc <;> rw [hc] <;> decide
  · intro d h1
    rw [run_ferr1 remote s b d hb h1]
    exact ⟨rfl, rfl⟩
  · intro tr d h1 h2
    rw [run_ferr2 remote s b tr d hb h1 h2]
    exact ⟨rfl, rfl⟩
  · intro tr url d h1 h2 h3
    rw [run_ferr3 remote s b tr url d hb h1 h2 h3]
    exact ⟨rfl, rfl⟩
  · intro tr url ad d h1 h2 h3 hd h4
    rw [run_ferr4 remote s b tr url ad d hb h1 h2 h3 hd h4]
    exact ⟨rfl, rfl⟩

/-- Witness for the C1 theorem on a fully successful concrete run. -/
theorem stage_order_failfast_witness :
    demoState.recordedBlob = some demoBlob ∧
    (calls (handleProcessFlow demoRemote demoState)).Nodup :=
  ⟨rfl, (stage_order_failfast demoRemote demoState demoBlob rfl).2.1⟩

/-- C2: on a fully successful run the progress updates are the reset to
0 at run start followed by exactly 20, 40, 60, 80, 100 in order; in any
run the updates never decrease and only the run-start update is 0. -/
theorem progress_sequence (remote : Remote) (s : AppState) (b : Blob)
    (tr url audio : String) (ad : AnalysisData)
    (hb : s.recordedBlob = some b)
    (h1 : remote.transcribe = Resp.ok tr)
    (h2 : remote.generate_image tr = Resp.ok url)
    (h3 : remote.analyze_image_similarity tr url = Resp.ok ad)
    (hd : ¬ ad.image_description = "")
    (h4 : remote.text_to_speech ad.image_description = Resp.ok audio) :
    progressTrace (handleProcessFlow remote s) = 0 :: [20, 40, 60, 80, 100] ∧
    (∀ (remote' : Remote) (s' : AppState),
       List.Chain' (· ≤ ·) (progressTrace (handleProcessFlow remote' s')) ∧
       ∀ p ∈ (progressTrace (handleProcessFlow remote' s')).tail, 0 < p) := by
  constructor
  · rw [run_okFull remote s b tr url ad audio hb h1 h2 h3 hd h4]
    rfl
  · exact progressTrace_monotone

/-- Witness for the C2 theorem on the concrete all-success oracle. -/
theorem progress_sequence_witness :
    demoState.recordedBlob = some demoBlob ∧
    progressTrace (handleProcessFlow demoRemote demoState) =
      0 :: [20, 40, 60, 80, 100] :=
  ⟨rfl, (progress_sequence demoRemote demoState demoBlob
      "a red fox in a forest" "https://img.example/fox.png" "QUJD"
      demoAnalysis rfl rfl rfl rfl (by decide) rfl).1⟩

/-- C3 counterexample: a `handleProcessFlow` invocation while a run is
in progress (`isProcessing = true`, progress 60) is not rejected — it
proceeds, resets progress to 0 and alters the in-progress run's state. -/
theorem second_invocation_not_rejected :
    (handleProcessFlow demoRemote
        { demoState with isProcessing := true, progress := 60 }).outcome
      = Outcome.completed ∧
    Event.setProgress 0 ∈ (handleProcessFlow demoRemote
        { demoState with isProcessing := true, progress := 60 }).events ∧
    (handleProcessFlow demoRemote
        { demoState with isProcessing := true, progress := 60 }).state.progress
      ≠ 60 := by
  decide

/-- C3 amended: mutual exclusion of runs is enforced by the interface,
not the handler — whenever a run is in progress the Process button is
disabled, so no second run can be invoked, queued or merged through the
UI; the handler itself has no already-running rejection. -/
theorem process_button_disabled_while_processing (s : AppState)
    (h : s.isProcessing = true) :
    processButtonEnabled s = false := by
  simp [processButtonEnabled, h]

/-- Witness for the amended C3 theorem at a concrete mid-run state. -/
theorem process_button_disabled_while_processing_witness :
    ({ demoState with isProcessing := true } : AppState).isProcessing = true ∧
    processButtonEnabled { demoState with isProcessing := true } = false :=
  ⟨rfl, process_button_disabled_while_processing
      { demoState with isProcessing := true } rfl⟩

/-- C4: every run on a recording enters stage 1 with progress set to 20
before the transcribe call is issued; on success the transcript text is
stored; on failure the run ends failed at the transcribing stage and no
later stage's call is issued. -/
theorem transcribe_stage_contract (remote : Remote) (s : AppState) (b : Blob)
    (hb : s.recordedBlob = some b) :
    (handleProcessFlow remote s).events.take 3 =
      [Event.setProgress 0, Event.setProgress 20, Event.call Stage.transcribing] ∧
    (∀ tr, remote.transcribe = Resp.ok tr →
       (handleProcessFlow remote s).state.transcript = tr ∧
       Event.setProgress 20 ∈ (handleProcessFlow remote s).events) ∧
    (∀ d, remote.transcribe = Resp.err d →
       (handleProcessFlow remote s).outcome =
         Outcome.failed Stage.transcribing
           (jsOrElse d (fallbackMsg Stage.transcribing)) ∧
       calls (handleProcessFlow remote s) = [Stage.transcribing]) := by
  refine ⟨?_, ?_, ?_⟩
  · rcases run_shape remote with ⟨d, h1⟩ | ⟨tr, d, h1, h2⟩ |
      ⟨tr, url, d, h1, h2, h3⟩ | ⟨tr, url, ad, h1, h2, h3, hd⟩ |
      ⟨tr, url, ad, d, h1, h2, h3, hd, h4⟩ | ⟨tr, url, ad, audio, h1, h2, h3, hd, h4⟩
    · rw [run_ferr1 remote s b d hb h1]; rfl
    · rw [run_ferr2 remote s b tr d hb h1 h2]; rfl
    · rw [run_ferr3 remote s b tr url d hb h1 h2 h3]; rfl
    · rw [run_okEmpty remote s b tr url ad hb h1 h2 h3 hd]; rfl
    · rw [run_ferr4 remote s b tr url ad d hb h1 h2 h3 hd h4]; rfl
    · rw [run_okFull remote s b tr url ad audio hb h1 h2 h3 hd h4]; rfl
  · intro tr h1
    cases h2 : remote.generate_image tr with
    | err d =>
      rw [run_ferr2 remote s b tr d hb h1 h2]
      exact ⟨rfl, by simp⟩
    | ok url =>
      cases h3 : remote.analyze_image_similarity tr url with
      | err d =>
        rw [run_ferr3 remote s b tr url d hb h1 h2 h3]
        exact ⟨rfl, by simp⟩
      | ok ad =>
        by_cases hd : ad.image_description = ""
        · rw [run_okEmpty remote s b tr url ad hb h1 h2 h3 hd]
          exact ⟨rfl, by simp⟩
        · cases h4 : remote.text_to_speech ad.image_description with
          | err d =>
            rw [run_ferr4 remote s b tr url ad d hb h1 h2 h3 hd h4]
            exact ⟨rfl, by simp⟩
          | ok audio =>
            rw [run_okFull remote s b tr url ad audio hb h1 h2 h3 hd h4]
            exact ⟨rfl, by simp⟩
  · intro d h1
    rw [run_ferr1 remote s b d hb h1]
    exact ⟨rfl, rfl⟩

/-- Witness for the C4 theorem: the concrete successful run stores the
returned transcript. -/
theorem transcribe_stage_contract_witness :
    demoRemote.transcribe = Resp.ok "a red fox in a forest" ∧
    (handleProcessFlow demoRemote demoState).state.transcript =
      "a red fox in a forest" :=
  ⟨rfl, ((transcribe_stage_contract demoRemote demoState demoBlob rfl).2.1
      "a red fox in a forest" rfl).1⟩

/-- C5: when analysis succeeds with an empty description the speech
stage is skipped without being an error — its remote call is never
issued — and the run still completes with progress 100. -/
theorem emptyDescription_skips_speech (remote : Remote) (s : AppState)
    (b : Blob) (tr url : String) (ad : AnalysisData)
    (hb : s.recordedBlob = some b)
    (h1 : remote.transcribe = Resp.ok tr)
    (h2 : remote.generate_image tr = Resp.ok url)
    (h3 : remote.analyze_image_similarity tr url = Resp.ok ad)
    (hd : ad.image_description = "") :
    (handleProcessFlow remote s).outcome = Outcome.completed ∧
    (handleProcessFlow remote s).state.progress = 100 ∧
    Event.call Stage.speaking ∉ (handleProcessFlow remote s).events ∧
    progressTrace (handleProcessFlow remote s) = [0, 20, 40, 60, 80, 100] := by
  rw [run_okEmpty remote s b tr url ad hb h1 h2 h3 hd]
  exact ⟨rfl, rfl, by simp, rfl⟩

/-- Witness for the C5 theorem on the empty-description oracle. -/
theorem emptyDescription_skips_speech_witness :
    emptyDescRemote.analyze_image_similarity "a red fox in a forest"
        "https://img.example/fox.png" = Resp.ok ⟨82, ""⟩ ∧
    (handleProcessFlow emptyDescRemote demoState).outcome = Outcome.completed ∧
    (handleProcessFlow emptyDescRemote demoState).state.progress = 100 :=
  ⟨rfl,
    (emptyDescription_skips_speech emptyDescRemote demoState demoBlob
      "a red fox in a forest" "https://img.example/fox.png" ⟨82, ""⟩
      rfl rfl rfl rfl rfl).1,
    (emptyDescription_skips_speech emptyDescRemote demoState demoBlob
      "a red fox in a forest" "https://img.example/fox.png" ⟨82, ""⟩
      rfl rfl rfl rfl rfl).2.1⟩

/-- C8: a generate-image failure carrying a (non-empty) detail message
fails the run at the generating stage with exactly that message; the
analysis and speech calls are never issued; and the transcript stored
by stage 1 survives in the final state. -/
theorem generateImage_failure_failfast (remote : Remote) (s : AppState)
    (b : Blob) (tr m : String)
    (hb : s.recordedBlob = some b)
    (h1 : remote.transcribe = Resp.ok tr)
    (h2 : remote.generate_image tr = Resp.err (some m))
    (hm : ¬ m = "") :
    (handleProcessFlow remote s).outcome = Outcome.failed Stage.generating m ∧
    Event.call Stage.analyzing ∉ (handleProcessFlow remote s).events ∧
    Event.call Stage.speaking ∉ (handleProcessFlow remote s).events ∧
    (handleProcessFlow remote s).state.transcript = tr := by
  rw [run_ferr2 remote s b tr (some m) hb h1 h2]
  refine ⟨?_, by simp, by simp, rfl⟩
  simp [jsOrElse, hm]

/-- Witness for the C8 theorem on the quota-exceeded oracle. -/
theorem generateImage_failure_failfast_witness :
    quotaRemote.generate_image "a red fox in a forest"
        = Resp.err (some "quota exceeded") ∧
    (handleProcessFlow quotaRemote demoState).outcome
        = Outcome.failed Stage.generating "quota exceeded" ∧
    (handleProcessFlow quotaRemote demoState).state.transcript
        = "a red fox in a forest" :=
  ⟨rfl,
    (generateImage_failure_failfast quotaRemote demoState demoBlob
      "a red fox in a forest" "quota exceeded" rfl rfl rfl (by decide)).1,
    (generateImage_failure_failfast quotaRemote demoState demoBlob
      "a red fox in a forest" "quota exceeded" rfl rfl rfl (by decide)).2.2.2⟩

/-- C10: starting a new run never clears a previous run's results:
each result field keeps its prior value unless the corresponding stage
of the new run succeeds, in which case it holds that stage's new value. -/
theorem results_persist_across_runs (remote : Remote) (s : AppState) (b : Blob)
    (hb : s.recordedBlob = some b) :
    ((handleProcessFlow remote s).state.transcript = s.transcript ∨
      ∃ tr, remote.transcribe = Resp.ok tr ∧
        (handleProcessFlow remote s).state.transcript = tr) ∧
    ((handleProcessFlow remote s).state.imageUrl = s.imageUrl ∨
      ∃ tr url, remote.transcribe = Resp.ok tr ∧
        remote.generate_image tr = Resp.ok url ∧
        (handleProcessFlow remote s).state.imageUrl = url) ∧
    (((handleProcessFlow remote s).state.similarityScore = s.similarityScore ∧
      (handleProcessFlow remote s).state.imageDescription = s.imageDescription) ∨
      ∃ tr url ad, remote.transcribe = Resp.ok tr ∧
        remote.generate_image tr = Resp.ok url ∧
        remote.analyze_image_similarity tr url = Resp.ok ad ∧
        (handleProcessFlow remote s).state.similarityScore
          = some ad.similarity_score ∧
        (handleProcessFlow remote s).state.imageDescription
          = ad.image_description) ∧
    ((handleProcessFlow remote s).state.descriptionAudio = s.descriptionAudio ∨
      ∃ tr url ad audio, remote.transcribe = Resp.ok tr ∧
        remote.generate_image tr = Resp.ok url ∧
        remote.analyze_image_similarity tr url = Resp.ok ad ∧
        remote.text_to_speech ad.image_description = Resp.ok audio ∧
        (handleProcessFlow remote s).state.descriptionAudio = audio) := by
  rcases run_shape remote with ⟨d, h1⟩ | ⟨tr, d, h1, h2⟩ |
    ⟨tr, url, d, h1, h2, h3⟩ | ⟨tr, url, ad, h1, h2, h3, hd⟩ |
    ⟨tr, url, ad, d, h1, h2, h3, hd, h4⟩ | ⟨tr, url, ad, audio, h1, h2, h3, hd, h4⟩
  · rw [run_ferr1 remote s b d hb h1]
    exact ⟨Or.inl rfl, Or.inl rfl, Or.inl ⟨rfl, rfl⟩, Or.inl rfl⟩
  · rw [run_ferr2 remote s b tr d hb h1 h2]
    exact ⟨Or.inr ⟨tr, h1, rfl⟩, Or.inl rfl, Or.inl ⟨rfl, rfl⟩, Or.inl rfl⟩
  · rw [run_ferr3 remote s b tr url d hb h1 h2 h3]
    exact ⟨Or.inr ⟨tr, h1, rfl⟩, Or.inr ⟨tr, url, h1, h2, rfl⟩,
      Or.inl ⟨rfl, rfl⟩, Or.inl rfl⟩
  · rw [run_okEmpty remote s b tr url ad hb h1 h2 h3 hd]
    exact ⟨Or.inr ⟨tr, h1, rfl⟩, Or.inr ⟨tr, url, h1, h2, rfl⟩,
      Or.inr ⟨tr, url, ad, h1, h2, h3, rfl, rfl⟩, Or.inl rfl⟩
  · rw [run_ferr4 remote s b tr url ad d hb h1 h2 h3 hd h4]
    exact ⟨Or.inr ⟨tr, h1, rfl⟩, Or.inr ⟨tr, url, h1, h2, rfl⟩,
      Or.inr ⟨tr, url, ad, h1, h2, h3, rfl, rfl⟩, Or.inl rfl⟩
  · rw [run_okFull remote s b tr url ad audio hb h1 h2 h3 hd h4]
    exact ⟨Or.inr ⟨tr, h1, rfl⟩, Or.inr ⟨tr, url, h1, h2, rfl⟩,
      Or.inr ⟨tr, url, ad, h1, h2, h3, rfl, rfl⟩,
      Or.inr ⟨tr, url, ad, audio, h1, h2, h3, h4, rfl⟩⟩

/-- Witness for the C10 theorem: a failed second run keeps the first
run's transcript on the quota-exceeded oracle. -/
theorem results_persist_across_runs_witness :
    demoState.recordedBlob = some demoBlob ∧
    ((handleProcessFlow quotaRemote demoState).state.descriptionAudio
        = demoState.descriptionAudio ∨
      ∃ tr url ad audio, quotaRemote.transcribe = Resp.ok tr ∧
        quotaRemote.generate_image tr = Resp.ok url ∧
        quotaRemote.analyze_image_similarity tr url = Resp.ok ad ∧
        quotaRemote.text_to_speech ad.image_description = Resp.ok audio ∧
        (handleProcessFlow quotaRemote demoState).state.descriptionAudio
          = audio) :=
  ⟨rfl, (results_persist_across_runs quotaRemote demoState demoBlob rfl).2.2.2⟩

end MMApp
